import Mathlib

/-!
Verification development for the ElectroSpot EV-charging backend.

The definitions below are a shallow embedding of the backend's logic:

* `searchExternalStations` embeds `backend/utils/serper.js`.  The HTTP
  transport and the environment variable holding the API key are passed in
  explicitly: `apiKey` is the value of `SERPER_API_KEY` (`none` when unset),
  and `transport` is the outcome of the provider round trip — `Except.error`
  for any request/parsing failure (the `catch` branch), `Except.ok` carrying
  the optional `places` array of the response body.  The `Math.random()`
  fallback id is supplied by the `fresh` parameter, indexed by position.
* `evaluateSmartSuggestions` embeds `backend/utils/trip_logic.js`.  The wall
  clock (`new Date().getHours()`) is the explicit `currentHour` parameter and
  the external-discovery call is the explicit `provider` function; the
  `providerCalls` field of the result records how many times the code called
  the provider on the taken path.
* `stationSearchPrimary`, `mergeExternalResults` and `stationSearchHandler`
  embed the `GET /stations/search` handler of the server file: the SQL
  distance query (spherical law of cosines, Earth radius 6371, `ORDER BY
  distance LIMIT 50`) and the low-result external fallback merge.
* `createBooking`, `cancelBooking`, `getStationById` and `registerUser` embed
  the `POST /bookings`, `DELETE /bookings/:id`, `GET /stations/:id` and
  `POST /auth/register` handlers over an explicit database state `DB`.
  JavaScript falsy request-body fields are modelled with `Option`/emptiness
  checks mirroring the source's truthiness tests; handlers return the HTTP
  status code paired with the successor database state.
-/

namespace ElectroSpot

/-- A charging station record, covering both rows of `charging_stations` and
the external-provider stations synthesized in `serper.js` (the server merges
both into one response list).  Persisted rows have `is_external = false` and
no rating fields. -/
structure Station where
  id : String
  name : String
  address : String
  latitude : ℝ
  longitude : ℝ
  status : String
  connector_type : String
  power_output_kw : ℚ
  price_per_kwh : ℚ
  is_external : Bool
  rating : Option ℚ
  reviews : Option Nat

/-- A place object of the external provider's response body (`serper.js`):
each field may be absent, as in the raw JSON. -/
structure Place where
  cid : Option String
  title : Option String
  address : Option String
  latitude : ℚ
  longitude : ℚ
  rating : Option ℚ
  ratingCount : Option Nat

/-- Mapping of one provider place to the station shape, from the
`places.map(...)` callback in `serper.js`; `fresh i` stands for the
`Math.random().toString(36).substr(2, 9)` fallback id of the `i`-th element,
used when `place.cid` is absent or falsy (empty). -/
def placeToStation (fresh : Nat → String) (i : Nat) (p : Place) : Station :=
  { id := "ext_" ++ (match p.cid with
      | some c => if c = "" then fresh i else c
      | none => fresh i)
    name := (match p.title with
      | some t => if t = "" then "Unknown Station" else t
      | none => "Unknown Station")
    address := (match p.address with
      | some a => if a = "" then "Address not available" else a
      | none => "Address not available")
    latitude := (p.latitude : ℝ)
    longitude := (p.longitude : ℝ)
    status := "available"
    connector_type := "CCS2"
    power_output_kw := 50
    price_per_kwh := 0
    is_external := true
    rating := p.rating
    reviews := p.ratingCount }

/-- Index-passing map over the place list, as the JavaScript `Array.map`
callback receives each element (the index feeds the random-id fallback). -/
def mapExternal (fresh : Nat → String) : Nat → List Place → List Station
  | _, [] => []
  | i, p :: ps => placeToStation fresh i p :: mapExternal fresh (i + 1) ps

/-- Embedding of `searchExternalStations` of `serper.js`.  `apiKey` is the
`SERPER_API_KEY` environment value (`none` when unset; the source also treats
an empty string as unset via JavaScript truthiness); `transport` is the
outcome of the provider call, `Except.error` covering every transport or
parsing failure caught by the source's `try`/`catch`, and `Except.ok` the
optional `places` field of the parsed body (`response.data.places || []`).
The function is total: every failure path yields `[]`, never an exception. -/
def searchExternalStations (apiKey : Option String)
    (transport : Except String (Option (List Place)))
    (fresh : Nat → String) : List Station :=
  match apiKey with
  | none => []
  | some k =>
    if k = "" then []
    else
      match transport with
      | Except.error _ => []
      | Except.ok placesOpt => mapExternal fresh 0 (placesOpt.getD [])

/-- The suggestion record built by `evaluateSmartSuggestions` in
`trip_logic.js`. -/
structure Suggestion where
  type : String
  mealType : String
  station : Station
  message : String
  chargeDuration : Nat

/-- The templated message of the suggestion (the backtick template string in
`trip_logic.js`); the apostrophes of the original text are built from
character code 39. -/
def suggestionMessage (mealType stationName : String) (duration : Nat) : String :=
  "It" ++ String.singleton (Char.ofNat 39) ++ "s " ++ mealType ++
    " time! There" ++ String.singleton (Char.ofNat 39) ++
    "s a fast charger nearby at " ++ stationName ++
    ". If you charge here for " ++ toString duration ++
    " mins, you can reach your destination without another stop. ☕⚡"

/-- Result of one evaluator run: the suggestion (or `none`) together with the
number of external-provider calls the taken code path performed. -/
structure EvalResult where
  providerCalls : Nat
  suggestion : Option Suggestion

/-- A trip row, per the data model (the evaluator receives but never reads
it). -/
structure Trip where
  id : Nat
  user_id : Nat
  start_lat : ℚ
  start_lng : ℚ
  dest_lat : ℚ
  dest_lng : ℚ
  battery_start : ℚ
  status : String

/-- A coordinate pair, the `currentLocation` argument of the evaluator. -/
structure Location where
  lat : ℚ
  lng : ℚ

/-- The meal-window computation of `trip_logic.js` lines 25–28: hour 8–9 is
breakfast, 12–14 lunch, 19–21 dinner, anything else no meal. -/
def mealTypeOf (currentHour : Nat) : Option String :=
  if 8 ≤ currentHour ∧ currentHour ≤ 9 then some "breakfast"
  else if 12 ≤ currentHour ∧ currentHour ≤ 14 then some "lunch"
  else if 19 ≤ currentHour ∧ currentHour ≤ 21 then some "dinner"
  else none

/-- Embedding of `evaluateSmartSuggestions` of `trip_logic.js`.  `provider`
is the `searchExternalStations` dependency (called with the current
coordinates and the fixed radius 5), `currentHour` the wall-clock hour.  The
returned `providerCalls` counts the provider calls on the taken path, so
`0` witnesses that the code returned before consulting the provider. -/
def evaluateSmartSuggestions (provider : ℚ → ℚ → ℚ → List Station)
    (trip : Trip) (currentLocation : Location)
    (currentBattery : ℚ) (currentHour : Nat) : EvalResult :=
  match mealTypeOf currentHour with
  | none => ⟨0, none⟩
  | some mealType =>
    if 60 ≤ currentBattery then ⟨0, none⟩
    else
      let nearbyStations := provider currentLocation.lat currentLocation.lng 5
      let fastChargers := nearbyStations.filter
        (fun s => decide ((30 : ℚ) ≤ s.power_output_kw))
      match fastChargers with
      | [] => ⟨1, none⟩
      | bestStation :: _ =>
        ⟨1, some { type := "meal_stop"
                   mealType := mealType
                   station := bestStation
                   message := suggestionMessage mealType bestStation.name 40
                   chargeDuration := 40 }⟩

/-- Degrees-to-radians conversion, the SQL `radians(x)`. -/
noncomputable def radiansOfDeg (x : ℝ) : ℝ := x * Real.pi / 180

/-- The per-station distance expression of the `GET /stations/search` SQL
query: spherical law of cosines with Earth radius 6371, where `$1`/`$2` are
the query latitude/longitude. -/
noncomputable def stationDistance (qlat qlng : ℝ) (s : Station) : ℝ :=
  6371 * Real.arccos
    (Real.cos (radiansOfDeg qlat) * Real.cos (radiansOfDeg s.latitude) *
        Real.cos (radiansOfDeg s.longitude - radiansOfDeg qlng) +
      Real.sin (radiansOfDeg qlat) * Real.sin (radiansOfDeg s.latitude))

open Classical in
/-- The primary SQL query of `GET /stations/search`: keep rows whose status
is not `inactive`, keep those within the radius by computed distance, order
ascending by distance, cap at 50 rows. -/
noncomputable def stationSearchPrimary (qlat qlng radius : ℝ)
    (stations : List Station) : List Station :=
  ((((stations.filter (fun s => !(s.status == "inactive"))).filter
      (fun s => decide (stationDistance qlat qlng s ≤ radius))).mergeSort
      (fun a b => decide (stationDistance qlat qlng a ≤ stationDistance qlat qlng b))).take
    50)

/-- The fallback merge of the `GET /stations/search` handler: collect the
lower-cased names of the primary rows, keep only external stations whose
lower-cased name is not among them, and append them after the primary rows. -/
def mergeExternalResults (primary external : List Station) : List Station :=
  let dbNames := primary.map (fun s => s.name.toLower)
  let uniqueExternal := external.filter (fun s => !(dbNames.contains s.name.toLower))
  primary ++ uniqueExternal

/-- The full `GET /stations/search` handler body: run the primary query, and
iff it produced fewer than 5 rows, fetch external stations and merge them.
The boolean of the result records whether the external fallback was invoked;
`external` stands for the list `searchExternalStations` returned. -/
noncomputable def stationSearchHandler (qlat qlng radius : ℝ)
    (persisted external : List Station) : Bool × List Station :=
  let results := stationSearchPrimary qlat qlng radius persisted
  if results.length < 5 then (true, mergeExternalResults results external)
  else (false, results)

/-- A row of the `bookings` table, with the columns the handlers touch. -/
structure Booking where
  id : Nat
  user_id : Nat
  station_id : String
  start_time : Int
  end_time : Option Int
  status : String
  cancelled_at : Option Int

/-- A row of the `users` table. -/
structure User where
  id : Nat
  name : String
  email : String
  password : String
  phone : String
  is_admin : Bool

/-- The relational state the handlers read and write: the station and booking
tables plus the sequence value backing the next booking id. -/
structure DB where
  stations : List Station
  bookings : List Booking
  nextBookingId : Nat

/-- The SQL `UPDATE charging_stations SET status = $s WHERE id = $sid`. -/
def updateStationStatus (sid newStatus : String) (l : List Station) : List Station :=
  l.map fun s => if s.id == sid then { s with status := newStatus } else s

/-- The `GET /stations/:id` lookup (`SELECT * FROM charging_stations WHERE
id = $1`, first row): `none` is the handler's 404. -/
def getStationById (db : DB) (sid : String) : Option Station :=
  db.stations.find? fun s => s.id == sid

/-- Embedding of the `POST /bookings` handler.  Body fields are `Option`s,
`none` covering an absent field; the emptiness/zero tests mirror the
JavaScript truthiness guard `!station_id || !start_time` and the
`duration ? ... : null` end-time computation.  Returns the HTTP status code
and the successor database. -/
def createBooking (db : DB) (userId : Nat) (station_id : Option String)
    (start_time : Option Int) (duration : Option Int) : Nat × DB :=
  match station_id, start_time with
  | some sid, some t =>
    if sid = "" ∨ t = 0 then (400, db)
    else
      match db.stations.find? (fun s => s.id == sid) with
      | none => (404, db)
      | some st =>
        if ¬ st.status = "available" then (400, db)
        else
          let endTime : Option Int := match duration with
            | some d => if d = 0 then none else some (t + d * 60000)
            | none => none
          let booking : Booking :=
            { id := db.nextBookingId
              user_id := userId
              station_id := sid
              start_time := t
              end_time := endTime
              status := "active"
              cancelled_at := none }
          (201, { stations := updateStationStatus sid "occupied" db.stations
                  bookings := db.bookings ++ [booking]
                  nextBookingId := db.nextBookingId + 1 })
  | _, _ => (400, db)

/-- Embedding of the `DELETE /bookings/:id` handler: look the booking up by
id and requesting user (`WHERE id = $1 AND user_id = $2`, first row); on a
miss answer 404 and leave the state untouched, otherwise mark the booking
cancelled at the current time and set its station back to `available`. -/
def cancelBooking (db : DB) (userId bookingId : Nat) (now : Int) : Nat × DB :=
  match db.bookings.find? (fun b => b.id == bookingId && b.user_id == userId) with
  | none => (404, db)
  | some booking =>
    (200, { stations := updateStationStatus booking.station_id "available" db.stations
            bookings := db.bookings.map
              (fun b => if b.id == bookingId then
                { b with status := "cancelled", cancelled_at := some now } else b)
            nextBookingId := db.nextBookingId })

/-- JavaScript truthiness test for an optional string body field: absent or
empty is falsy. -/
def falsy (o : Option String) : Bool :=
  match o with
  | none => true
  | some s => s == ""

/-- The JavaScript `String.prototype.trim()`: drop leading and trailing
whitespace characters. -/
def jsTrim (s : String) : String :=
  String.mk
    (((s.toList.dropWhile Char.isWhitespace).reverse.dropWhile
      Char.isWhitespace).reverse)

/-- The two regex passes of the register handler,
`.replace(/[^\d+]/g, '').replace(/\+/g, '')`: keep digits and plus signs,
then drop the plus signs. -/
def phoneDigits (s : String) : String :=
  let firstPass := String.mk (s.toList.filter fun c => c.isDigit || c == '+')
  String.mk (firstPass.toList.filter fun c => !(c == '+'))

/-- Embedding of the `POST /auth/register` handler over the users table:
name/email/password must be truthy, phone must be truthy, non-empty after
trimming, and keep at least 10 characters after the digit-stripping passes;
then the email must be free, and only then is a row inserted (`hash` stands
for `bcrypt.hash`).  Returns the HTTP status code and the successor table. -/
def registerUser (users : List User) (nextId : Nat) (hash : String → String)
    (name email password phone : Option String) : Nat × List User :=
  if falsy name || falsy email || falsy password then (400, users)
  else if falsy phone then (400, users)
  else
    let phoneTrimmed := jsTrim (phone.getD "")
    if phoneTrimmed = "" then (400, users)
    else if (phoneDigits phoneTrimmed).length < 10 then (400, users)
    else if users.any (fun u => u.email == email.getD "") then (400, users)
    else
      (201, users ++ [{ id := nextId
                        name := name.getD ""
                        email := email.getD ""
                        password := hash (password.getD "")
                        phone := phoneTrimmed
                        is_admin := false }])

/-- The head of a filtered list is the first element satisfying the
predicate. -/
theorem head?_filter_eq_find? {α : Type} (p : α → Bool) (l : List α) :
    (l.filter p).head? = l.find? p := by
  induction l with
  | nil => rfl
  | cons a l ih =>
    by_cases h : p a = true
    · simp [List.filter_cons, List.find?_cons, h]
    · simp [List.filter_cons, List.find?_cons, h, ih]

/-- A fixed trip used to instantiate theorems at concrete inputs. -/
def demoTrip : Trip :=
  { id := 1, user_id := 1, start_lat := 0, start_lng := 0, dest_lat := 1,
    dest_lng := 1, battery_start := 80, status := "active" }

/-- A fixed location used to instantiate theorems at concrete inputs. -/
def demoLoc : Location := { lat := 0, lng := 0 }

/-- C5: for every wall-clock hour outside the meal windows [8,9], [12,14],
[19,21], the evaluator returns null — for every battery, trip and location —
and the result's call counter is 0: the external provider is not consulted
on that path. -/
theorem evaluateSmartSuggestions_outside_meal_null
    (provider : ℚ → ℚ → ℚ → List Station) (trip : Trip) (loc : Location)
    (battery : ℚ) (hour : Nat)
    (h : ¬ ((8 ≤ hour ∧ hour ≤ 9) ∨ (12 ≤ hour ∧ hour ≤ 14) ∨
      (19 ≤ hour ∧ hour ≤ 21))) :
    evaluateSmartSuggestions provider trip loc battery hour = ⟨0, none⟩ := by
  have hm : mealTypeOf hour = none := by
    unfold mealTypeOf
    split_ifs with a b c
    · exact absurd (Or.inl a) h
    · exact absurd (Or.inr (Or.inl b)) h
    · exact absurd (Or.inr (Or.inr c)) h
    · rfl
  simp [evaluateSmartSuggestions, hm]

/-- Witness for C5 at hour 10. -/
theorem evaluateSmartSuggestions_outside_meal_null_witness :
    (¬ ((8 ≤ 10 ∧ 10 ≤ 9) ∨ (12 ≤ 10 ∧ 10 ≤ 14) ∨ (19 ≤ 10 ∧ 10 ≤ 21))) ∧
    evaluateSmartSuggestions (fun a b r => []) demoTrip demoLoc 40 10 = ⟨0, none⟩ :=
  ⟨by decide,
    evaluateSmartSuggestions_outside_meal_null (fun a b r => []) demoTrip demoLoc
      40 10 (by decide)⟩

/-- C6: for every battery percentage at least 60 the evaluator returns null,
for every hour (in particular inside a meal window), trip and location. -/
theorem evaluateSmartSuggestions_high_battery_null
    (provider : ℚ → ℚ → ℚ → List Station) (trip : Trip) (loc : Location)
    (battery : ℚ) (hour : Nat) (h : 60 ≤ battery) :
    (evaluateSmartSuggestions provider trip loc battery hour).suggestion = none := by
  cases hm : mealTypeOf hour with
  | none => simp [evaluateSmartSuggestions, hm]
  | some m => simp [evaluateSmartSuggestions, hm, h]

/-- Witness for C6 at battery 60 during lunch hour 12. -/
theorem evaluateSmartSuggestions_high_battery_null_witness :
    (60 : ℚ) ≤ 60 ∧
    (evaluateSmartSuggestions (fun a b r => []) demoTrip demoLoc 60 12).suggestion
      = none :=
  ⟨le_refl 60,
    evaluateSmartSuggestions_high_battery_null (fun a b r => []) demoTrip demoLoc
      60 12 (le_refl 60)⟩

/-- C1: during a meal-window hour with battery strictly below 60, the
evaluator returns null when no provider station has power output at least
30 kW, and otherwise returns the suggestion built from the first such station
in provider order, with charge duration 40. -/
theorem evaluateSmartSuggestions_meal_low_battery
    (provider : ℚ → ℚ → ℚ → List Station) (trip : Trip) (loc : Location)
    (battery : ℚ) (hour : Nat) (m : String)
    (hm : mealTypeOf hour = some m) (hb : battery < 60) :
    ((provider loc.lat loc.lng 5).find?
        (fun s => decide ((30 : ℚ) ≤ s.power_output_kw)) = none →
      (evaluateSmartSuggestions provider trip loc battery hour).suggestion = none) ∧
    (∀ s, (provider loc.lat loc.lng 5).find?
        (fun s => decide ((30 : ℚ) ≤ s.power_output_kw)) = some s →
      (evaluateSmartSuggestions provider trip loc battery hour).suggestion =
        some { type := "meal_stop", mealType := m, station := s,
               message := suggestionMessage m s.name 40, chargeDuration := 40 }) := by
  have hnb : ¬ (60 ≤ battery) := not_le.2 hb
  constructor
  · intro hfind
    have hfil : (provider loc.lat loc.lng 5).filter
        (fun s => decide ((30 : ℚ) ≤ s.power_output_kw)) = [] :=
      List.filter_eq_nil_iff.2 (List.find?_eq_none.1 hfind)
    simp [evaluateSmartSuggestions, hm, hnb, hfil]
  · intro s hfind
    have hhead : ((provider loc.lat loc.lng 5).filter
        (fun s => decide ((30 : ℚ) ≤ s.power_output_kw))).head? = some s := by
      rw [head?_filter_eq_find?]
      exact hfind
    cases hfil : (provider loc.lat loc.lng 5).filter
        (fun s => decide ((30 : ℚ) ≤ s.power_output_kw)) with
    | nil => rw [hfil] at hhead; cases hhead
    | cons b t =>
      rw [hfil] at hhead
      have hb' : b = s := by simpa using hhead
      subst hb'
      simp [evaluateSmartSuggestions, hm, hnb, hfil]

/-- Witness for C1 at hour 12, battery 40, empty provider result. -/
theorem evaluateSmartSuggestions_meal_low_battery_witness :
    mealTypeOf 12 = some "lunch" ∧ (40 : ℚ) < 60 ∧
    ((List.find? (fun s => decide ((30 : ℚ) ≤ s.power_output_kw))
        ([] : List Station) = none →
      (evaluateSmartSuggestions (fun a b r => []) demoTrip demoLoc 40 12).suggestion
        = none) ∧
    (∀ s, List.find? (fun s => decide ((30 : ℚ) ≤ s.power_output_kw))
        ([] : List Station) = some s →
      (evaluateSmartSuggestions (fun a b r => []) demoTrip demoLoc 40 12).suggestion =
        some { type := "meal_stop", mealType := "lunch", station := s,
               message := suggestionMessage "lunch" s.name 40, chargeDuration := 40 })) :=
  ⟨rfl, by norm_num,
    evaluateSmartSuggestions_meal_low_battery (fun a b r => []) demoTrip demoLoc
      40 12 "lunch" rfl (by norm_num)⟩

/-- C4: external discovery absorbs every failure: with the API key unset (or
empty, which the source's truthiness test also treats as unset) or with any
transport/parsing error, it returns the empty list.  Totality of
`searchExternalStations` embeds the remaining part of the claim: every input
yields a list, no path escapes to the caller. -/
theorem searchExternalStations_failure_empty (apiKey : Option String)
    (transport : Except String (Option (List Place))) (fresh : Nat → String)
    (h : apiKey = none ∨ apiKey = some "" ∨ ∃ e, transport = Except.error e) :
    searchExternalStations apiKey transport fresh = [] := by
  rcases h with h | h | ⟨e, h⟩
  · subst h; rfl
  · subst h; rfl
  · subst h
    cases apiKey with
    | none => rfl
    | some k =>
      by_cases hk : k = "" <;> simp [searchExternalStations, hk]

/-- Witness for C4 with the API key unset. -/
theorem searchExternalStations_failure_empty_witness :
    ((none : Option String) = none ∨ (none : Option String) = some "" ∨
      ∃ e, (Except.ok none : Except String (Option (List Place))) = Except.error e) ∧
    searchExternalStations none (Except.ok none) (fun i => "x") = [] :=
  ⟨Or.inl rfl,
    searchExternalStations_failure_empty none (Except.ok none) (fun i => "x")
      (Or.inl rfl)⟩

/-- Every station produced by the place-mapping comes from mapping some place
at some index. -/
theorem mem_mapExternal {fresh : Nat → String} :
    ∀ {i : Nat} {ps : List Place} {s : Station}, s ∈ mapExternal fresh i ps →
      ∃ j p, p ∈ ps ∧ s = placeToStation fresh j p := by
  intro i ps
  induction ps generalizing i with
  | nil => intro s hs; cases hs
  | cons p ps ih =>
    intro s hs
    simp only [mapExternal, List.mem_cons] at hs
    rcases hs with hs | hs
    · exact ⟨i, p, ⟨List.mem_cons_self p ps, hs⟩⟩
    · obtain ⟨j, q, hq, rfl⟩ := ih hs
      exact ⟨j, q, List.mem_cons_of_mem p hq, rfl⟩

/-- The place-mapping returns the empty list exactly on the empty place
list. -/
theorem mapExternal_eq_nil_iff {fresh : Nat → String} {i : Nat} {ps : List Place} :
    mapExternal fresh i ps = [] ↔ ps = [] := by
  cases ps <;> simp [mapExternal]

/-- C10: every station produced by external discovery has an id prefixed
`ext_`, is flagged external, status `available`, connector `CCS2`, price 0
and power output 50; consequently the evaluator's ≥30 kW filter keeps every
external candidate, so during a meal window with battery below 60 and the
provider transport succeeding, the evaluator answers non-null exactly when
the provider's place list is non-empty. -/
theorem searchExternalStations_shape_and_coupling (fresh : Nat → String)
    (k : String) (hk : ¬ k = "") (placesOpt : Option (List Place))
    (trip : Trip) (loc : Location) (battery : ℚ) (hour : Nat) (m : String)
    (hm : mealTypeOf hour = some m) (hb : battery < 60) :
    (∀ (apiKey : Option String) (transport : Except String (Option (List Place))),
      ∀ s ∈ searchExternalStations apiKey transport fresh,
        (∃ rest, s.id = "ext_" ++ rest) ∧ s.is_external = true ∧
        s.status = "available" ∧ s.connector_type = "CCS2" ∧
        s.price_per_kwh = 0 ∧ s.power_output_kw = 50) ∧
    ((evaluateSmartSuggestions
        (fun a b r => searchExternalStations (some k) (Except.ok placesOpt) fresh)
        trip loc battery hour).suggestion ≠ none ↔ ¬ placesOpt.getD [] = []) := by
  have hshape : ∀ (apiKey : Option String)
      (transport : Except String (Option (List Place))),
      ∀ s ∈ searchExternalStations apiKey transport fresh,
        (∃ rest, s.id = "ext_" ++ rest) ∧ s.is_external = true ∧
        s.status = "available" ∧ s.connector_type = "CCS2" ∧
        s.price_per_kwh = 0 ∧ s.power_output_kw = 50 := by
    intro apiKey transport s hs
    have hmap : ∃ j p, s = placeToStation fresh j p := by
      cases apiKey with
      | none => cases hs
      | some key =>
        by_cases hkey : key = ""
        · subst hkey
          have hz : searchExternalStations (some "") transport fresh = [] := rfl
          rw [hz] at hs
          cases hs
        · cases transport with
          | error e =>
            have hz : searchExternalStations (some key) (Except.error e) fresh =
                if key = "" then [] else [] := rfl
            rw [hz, ite_self] at hs
            cases hs
          | ok po =>
            have hz : searchExternalStations (some key) (Except.ok po) fresh =
                if key = "" then [] else mapExternal fresh 0 (po.getD []) := rfl
            rw [hz, if_neg hkey] at hs
            obtain ⟨j, p, _, rfl⟩ := mem_mapExternal hs
            exact ⟨j, p, rfl⟩
    obtain ⟨j, p, rfl⟩ := hmap
    exact ⟨⟨_, rfl⟩, rfl, rfl, rfl, rfl, rfl⟩
  refine ⟨hshape, ?_⟩
  have hres : searchExternalStations (some k) (Except.ok placesOpt) fresh =
      mapExternal fresh 0 (placesOpt.getD []) := by
    have hstep : searchExternalStations (some k) (Except.ok placesOpt) fresh =
        if k = "" then [] else mapExternal fresh 0 (placesOpt.getD []) := rfl
    rw [hstep, if_neg hk]
  have hnb : ¬ (60 ≤ battery) := not_le.2 hb
  have hfil : ∀ (i : Nat) (ps : List Place), (mapExternal fresh i ps).filter
      (fun s => decide ((30 : ℚ) ≤ s.power_output_kw)) = mapExternal fresh i ps := by
    intro i ps
    apply List.filter_eq_self.2
    intro s hs
    obtain ⟨j, q, hq, rfl⟩ := mem_mapExternal hs
    rw [decide_eq_true_iff]
    show (30 : ℚ) ≤ 50
    norm_num
  have hfil0 := hfil 0 (placesOpt.getD [])
  cases hpl : placesOpt.getD [] with
  | nil =>
    simp [evaluateSmartSuggestions, hm, hnb, hres, hpl, mapExternal]
  | cons p ps =>
    simp only [evaluateSmartSuggestions, hm, hnb, if_false, hres, hfil0]
    rw [hpl]
    simp [mapExternal]

/-- A fixed provider place used to instantiate theorems at concrete inputs. -/
def demoPlace : Place :=
  { cid := none, title := none, address := none, latitude := 0, longitude := 0,
    rating := none, ratingCount := none }

/-- Witness for C10 with one place in the provider response, at hour 12 and
battery 40. -/
theorem searchExternalStations_shape_and_coupling_witness :
    (¬ "key" = "") ∧ mealTypeOf 12 = some "lunch" ∧ (40 : ℚ) < 60 ∧
    ((∀ (apiKey : Option String) (transport : Except String (Option (List Place))),
      ∀ s ∈ searchExternalStations apiKey transport (fun i => "x"),
        (∃ rest, s.id = "ext_" ++ rest) ∧ s.is_external = true ∧
        s.status = "available" ∧ s.connector_type = "CCS2" ∧
        s.price_per_kwh = 0 ∧ s.power_output_kw = 50) ∧
    ((evaluateSmartSuggestions
        (fun a b r => searchExternalStations (some "key")
          (Except.ok (some [demoPlace])) (fun i => "x"))
        demoTrip demoLoc 40 12).suggestion ≠ none ↔
      ¬ (some [demoPlace] : Option (List Place)).getD [] = [])) :=
  ⟨by simp, rfl, by norm_num,
    searchExternalStations_shape_and_coupling (fun i => "x") "key" (by simp)
      (some [demoPlace]) demoTrip demoLoc 40 12 "lunch" rfl (by norm_num)⟩

/-- Looking a station up by id after a status update of the same id returns
the originally found row with its status replaced. -/
theorem find?_updateStationStatus_self (sid newStatus : String) (l : List Station) :
    (updateStationStatus sid newStatus l).find? (fun s => s.id == sid) =
      (l.find? (fun s => s.id == sid)).map (fun s => { s with status := newStatus }) := by
  induction l with
  | nil => rfl
  | cons a l ih =>
    by_cases h : a.id = sid
    · simp [updateStationStatus, List.find?_cons, h]
    · simp [updateStationStatus, List.find?_cons, h]
      simpa [updateStationStatus] using ih

/-- C7: cancelling a booking that does not exist or does not belong to the
requesting user answers 404 and leaves the whole database state — in
particular the booking's status and the station's status — unchanged. -/
theorem cancelBooking_not_owned_404 (db : DB) (userId bookingId : Nat) (now : Int)
    (h : ¬ ∃ b ∈ db.bookings, b.id = bookingId ∧ b.user_id = userId) :
    cancelBooking db userId bookingId now = (404, db) := by
  have hf : db.bookings.find? (fun b => b.id == bookingId && b.user_id == userId)
      = none := by
    apply List.find?_eq_none.2
    intro b hb hp
    apply h
    refine ⟨b, hb, ?_⟩
    simpa using hp
  simp [cancelBooking, hf]

/-- Witness for C7 on a database with no bookings. -/
theorem cancelBooking_not_owned_404_witness :
    (¬ ∃ b ∈ (DB.mk [] [] 1).bookings, b.id = 7 ∧ b.user_id = 3) ∧
    cancelBooking (DB.mk [] [] 1) 3 7 0 = (404, DB.mk [] [] 1) :=
  ⟨by simp, cancelBooking_not_owned_404 (DB.mk [] [] 1) 3 7 0 (by simp)⟩

/-- C8: creating a booking on an available station answers 201 and a
subsequent station fetch shows status `occupied`; cancelling that booking
answers 200 and a further fetch shows status `available` again.  The
freshness hypothesis says the booking-id sequence value is not already in
use, as the database's serial primary key guarantees. -/
theorem booking_roundtrip_status (db : DB) (userId : Nat) (sid : String)
    (st : Station) (t now2 : Int) (dur : Option Int)
    (hsid : ¬ sid = "") (ht : ¬ t = 0)
    (hst : getStationById db sid = some st)
    (hav : st.status = "available")
    (hfresh : ∀ b ∈ db.bookings, ¬ b.id = db.nextBookingId) :
    (createBooking db userId (some sid) (some t) dur).1 = 201 ∧
    ((getStationById (createBooking db userId (some sid) (some t) dur).2 sid).map
      Station.status = some "occupied") ∧
    (cancelBooking (createBooking db userId (some sid) (some t) dur).2 userId
      db.nextBookingId now2).1 = 200 ∧
    ((getStationById (cancelBooking (createBooking db userId (some sid) (some t) dur).2
        userId db.nextBookingId now2).2 sid).map Station.status = some "available") := by
  have hfind : db.stations.find? (fun s => s.id == sid) = some st := hst
  have hnotor : ¬ (sid = "" ∨ t = 0) := by
    intro hor
    rcases hor with hor | hor
    · exact hsid hor
    · exact ht hor
  have hnav : ¬ ¬ st.status = "available" := not_not_intro hav
  set newBooking : Booking :=
    { id := db.nextBookingId, user_id := userId, station_id := sid, start_time := t,
      end_time := (match dur with
        | some d => if d = 0 then none else some (t + d * 60000)
        | none => none),
      status := "active", cancelled_at := none } with hnewB
  have hcreate : createBooking db userId (some sid) (some t) dur =
      (201, { stations := updateStationStatus sid "occupied" db.stations
              bookings := db.bookings ++ [newBooking]
              nextBookingId := db.nextBookingId + 1 }) := by
    simp only [createBooking, if_neg hnotor, hfind, if_neg hnav]
  have hget1 : (getStationById (createBooking db userId (some sid) (some t) dur).2
      sid).map Station.status = some "occupied" := by
    rw [hcreate]
    show ((updateStationStatus sid "occupied" db.stations).find?
      (fun s => s.id == sid)).map Station.status = some "occupied"
    rw [find?_updateStationStatus_self, hfind]
    rfl
  have hfindb : (db.bookings ++ [newBooking]).find?
      (fun b => b.id == db.nextBookingId && b.user_id == userId) = some newBooking := by
    rw [List.find?_append]
    have h1 : db.bookings.find?
        (fun b => b.id == db.nextBookingId && b.user_id == userId) = none := by
      apply List.find?_eq_none.2
      intro b hb hp
      simp only [Bool.and_eq_true, beq_iff_eq] at hp
      exact hfresh b hb hp.1
    rw [h1]
    have h2 : List.find? (fun b => b.id == db.nextBookingId && b.user_id == userId)
        [newBooking] = some newBooking := by
      apply List.find?_cons_of_pos
      simp [hnewB]
    rw [h2]
    rfl
  have hcancel : cancelBooking (createBooking db userId (some sid) (some t) dur).2
      userId db.nextBookingId now2 =
      (200, { stations := updateStationStatus sid "available"
                (updateStationStatus sid "occupied" db.stations)
              bookings := (db.bookings ++ [newBooking]).map
                (fun b => if b.id == db.nextBookingId then
                  { b with status := "cancelled", cancelled_at := some now2 } else b)
              nextBookingId := db.nextBookingId + 1 }) := by
    rw [hcreate]
    show cancelBooking
      { stations := updateStationStatus sid "occupied" db.stations
        bookings := db.bookings ++ [newBooking]
        nextBookingId := db.nextBookingId + 1 } userId db.nextBookingId now2 = _
    simp only [cancelBooking, hfindb]
  refine ⟨by rw [hcreate], hget1, by rw [hcancel], ?_⟩
  rw [hcancel]
  show ((updateStationStatus sid "available"
      (updateStationStatus sid "occupied" db.stations)).find?
      (fun s => s.id == sid)).map Station.status = some "available"
  rw [find?_updateStationStatus_self, find?_updateStationStatus_self, hfind]
  rfl

/-- A fixed available station used to instantiate theorems at concrete
inputs. -/
def demoStation : Station :=
  { id := "1", name := "Demo Charge Hub", address := "Demo Street",
    latitude := 0, longitude := 0, status := "available",
    connector_type := "CCS2", power_output_kw := 50, price_per_kwh := 12,
    is_external := false, rating := none, reviews := none }

/-- A one-station, no-booking database used to instantiate theorems. -/
def demoDB : DB := { stations := [demoStation], bookings := [], nextBookingId := 1 }

/-- Witness for C8 on the one-station demo database. -/
theorem booking_roundtrip_status_witness :
    (¬ "1" = "") ∧ (¬ (5 : Int) = 0) ∧
    getStationById demoDB "1" = some demoStation ∧
    demoStation.status = "available" ∧
    (∀ b ∈ demoDB.bookings, ¬ b.id = demoDB.nextBookingId) ∧
    ((createBooking demoDB 2 (some "1") (some 5) none).1 = 201 ∧
    ((getStationById (createBooking demoDB 2 (some "1") (some 5) none).2 "1").map
      Station.status = some "occupied") ∧
    (cancelBooking (createBooking demoDB 2 (some "1") (some 5) none).2 2
      demoDB.nextBookingId 9).1 = 200 ∧
    ((getStationById (cancelBooking (createBooking demoDB 2 (some "1") (some 5) none).2
        2 demoDB.nextBookingId 9).2 "1").map Station.status = some "available")) :=
  ⟨by simp, by norm_num, rfl, rfl, by simp [demoDB],
    booking_roundtrip_status demoDB 2 "1" demoStation 5 9 none (by simp)
      (by norm_num) rfl rfl (by simp [demoDB])⟩

/-- C9: a registration whose phone keeps fewer than 10 characters after
trimming and the digit-stripping passes answers 400 and inserts no user,
whatever the name, email and password fields are (the handler also answers
400 earlier when one of those is falsy). -/
theorem registerUser_short_phone_400 (users : List User) (nextId : Nat)
    (hash : String → String) (name email password : Option String) (phone : String)
    (h : (phoneDigits (jsTrim phone)).length < 10) :
    registerUser users nextId hash name email password (some phone) = (400, users) := by
  unfold registerUser
  by_cases h1 : (falsy name || falsy email || falsy password) = true
  · rw [if_pos h1]
  · rw [if_neg h1]
    by_cases h2 : falsy (some phone) = true
    · rw [if_pos h2]
    · rw [if_neg h2]
      simp only [Option.getD_some]
      by_cases h3 : jsTrim phone = ""
      · rw [if_pos h3]
      · rw [if_neg h3, if_pos h]

/-- Witness for C9 with a three-digit phone number. -/
theorem registerUser_short_phone_400_witness :
    (phoneDigits (jsTrim "123")).length < 10 ∧
    registerUser [] 1 (fun s => s) (some "Ada") (some "ada@example.com")
      (some "pw") (some "123") = (400, []) :=
  ⟨by decide,
    registerUser_short_phone_400 [] 1 (fun s => s) (some "Ada")
      (some "ada@example.com") (some "pw") "123" (by decide)⟩

/-- Merge sort under a comparator derived from a real-valued measure yields a
list that is pairwise non-decreasing in that measure. -/
theorem pairwise_mergeSort_of_measure {α : Type} (d : α → ℝ)
    (inst : ∀ a b : α, Decidable (d a ≤ d b)) (l : List α) :
    (l.mergeSort (fun a b => @decide (d a ≤ d b) (inst a b))).Pairwise
      (fun a b => d a ≤ d b) := by
  have h := @List.sorted_mergeSort α (fun a b => @decide (d a ≤ d b) (inst a b))
    (fun a b c hab hbc => by
      rw [decide_eq_true_iff] at *
      exact le_trans hab hbc)
    (fun a b => by
      rcases le_total (d a) (d b) with h | h <;> simp [h]) l
  exact h.imp (fun hab => of_decide_eq_true hab)

/-- Amended C2: the list produced by the primary persisted-station query —
the whole endpoint response whenever the external fallback contributes
nothing — is non-decreasing in the computed law-of-cosines distance, contains
no station farther than the radius, no inactive station, and at most 50
entries. -/
theorem stationSearchPrimary_sorted_bounded (qlat qlng radius : ℝ)
    (stations : List Station) :
    (stationSearchPrimary qlat qlng radius stations).Pairwise
      (fun a b => stationDistance qlat qlng a ≤ stationDistance qlat qlng b) ∧
    (∀ s ∈ stationSearchPrimary qlat qlng radius stations,
      stationDistance qlat qlng s ≤ radius ∧ ¬ s.status = "inactive") ∧
    (stationSearchPrimary qlat qlng radius stations).length ≤ 50 := by
  unfold stationSearchPrimary
  refine ⟨?_, ?_, ?_⟩
  · apply List.Pairwise.sublist (List.take_sublist _ _)
    exact pairwise_mergeSort_of_measure (fun s => stationDistance qlat qlng s) _ _
  · intro s hs
    have hs1 : s ∈ ((stations.filter (fun s => !(s.status == "inactive"))).filter
        (fun s => decide (stationDistance qlat qlng s ≤ radius))).mergeSort
        (fun a b => decide (stationDistance qlat qlng a ≤ stationDistance qlat qlng b)) :=
      (List.take_sublist _ _).subset hs
    have hs2 := (List.mergeSort_perm _ _).subset hs1
    have hs3 := List.mem_filter.1 hs2
    have hs4 := List.mem_filter.1 hs3.1
    refine ⟨of_decide_eq_true hs3.2, ?_⟩
    have := hs4.2
    simpa using this
  · rw [List.length_take]
    exact min_le_left _ _

/-- A station sitting on the opposite side of the globe from the query point
(latitude 0, longitude 180), as external discovery could return it. -/
def farStation : Station :=
  { id := "ext_far", name := "Far Test Charger", address := "Far away",
    latitude := 0, longitude := 180, status := "available",
    connector_type := "CCS2", power_output_kw := 50, price_per_kwh := 0,
    is_external := true, rating := none, reviews := none }

/-- Counterexample to C2 as stated: with no persisted stations, the external
fallback fires, and the endpoint's returned list contains a station whose
computed law-of-cosines distance (6371·π) exceeds the requested radius 1. -/
theorem stationSearch_beyond_radius_cex :
    farStation ∈ (stationSearchHandler 0 0 1 [] [farStation]).2 ∧
    ¬ stationDistance 0 0 farStation ≤ 1 := by
  constructor
  · have hp : stationSearchPrimary 0 0 1 ([] : List Station) = [] := by
      simp [stationSearchPrimary]
    have hh : stationSearchHandler 0 0 1 ([] : List Station) [farStation] =
        (true, mergeExternalResults [] [farStation]) := by
      simp [stationSearchHandler, hp]
    rw [hh]
    show farStation ∈ mergeExternalResults [] [farStation]
    simp [mergeExternalResults]
  · have hrad0 : radiansOfDeg 0 = 0 := by simp [radiansOfDeg]
    have hrad180 : radiansOfDeg 180 = Real.pi := by
      unfold radiansOfDeg
      rw [mul_comm]
      exact mul_div_cancel_right₀ Real.pi (by norm_num)
    have hdist : stationDistance 0 0 farStation = 6371 * Real.pi := by
      unfold stationDistance
      have hlat : farStation.latitude = (0 : ℝ) := rfl
      have hlng : farStation.longitude = (180 : ℝ) := rfl
      rw [hlat, hlng, hrad0, hrad180]
      simp [Real.cos_zero, Real.sin_zero, Real.cos_pi, Real.arccos_neg_one]
    rw [hdist]
    intro hle
    have hpi := Real.pi_gt_three
    nlinarith

/-- C3: the external fallback fires exactly when the primary query yields
fewer than 5 rows; the response starts with the primary rows in their order;
every appended row comes from the external list and its lower-cased name
clashes with no primary row's; and the appended rows keep the external
(provider) order, without re-sorting. -/
theorem stationSearchHandler_fallback_merge (qlat qlng radius : ℝ)
    (persisted external : List Station) :
    ((stationSearchHandler qlat qlng radius persisted external).1 = true ↔
      (stationSearchPrimary qlat qlng radius persisted).length < 5) ∧
    ((stationSearchHandler qlat qlng radius persisted external).2.take
        (stationSearchPrimary qlat qlng radius persisted).length =
      stationSearchPrimary qlat qlng radius persisted) ∧
    (∀ e ∈ (stationSearchHandler qlat qlng radius persisted external).2.drop
        (stationSearchPrimary qlat qlng radius persisted).length,
      e ∈ external ∧ ∀ p ∈ stationSearchPrimary qlat qlng radius persisted,
        ¬ p.name.toLower = e.name.toLower) ∧
    ((stationSearchHandler qlat qlng radius persisted external).2.drop
        (stationSearchPrimary qlat qlng radius persisted).length).Sublist external := by
  by_cases h5 : (stationSearchPrimary qlat qlng radius persisted).length < 5
  · have hh : stationSearchHandler qlat qlng radius persisted external =
        (true, mergeExternalResults (stationSearchPrimary qlat qlng radius persisted)
          external) := by
      unfold stationSearchHandler
      rw [if_pos h5]
    have hm : mergeExternalResults (stationSearchPrimary qlat qlng radius persisted)
        external =
        stationSearchPrimary qlat qlng radius persisted ++ external.filter
          (fun s => !(((stationSearchPrimary qlat qlng radius persisted).map
            (fun x => x.name.toLower)).contains s.name.toLower)) := rfl
    rw [hh, hm]
    refine ⟨by simpa using h5, List.take_left _ _, ?_, ?_⟩
    · intro e he
      rw [List.drop_left] at he
      have hmem := List.mem_filter.1 he
      refine ⟨hmem.1, ?_⟩
      intro p hp' hEq
      have hcontains : (((stationSearchPrimary qlat qlng radius persisted).map
          (fun x => x.name.toLower)).contains e.name.toLower) = true := by
        apply List.contains_iff_exists_mem_beq.2
        refine ⟨p.name.toLower, List.mem_map_of_mem _ hp', ?_⟩
        rw [hEq]
        exact beq_self_eq_true _
      have := hmem.2
      rw [hcontains] at this
      cases this
    · rw [List.drop_left]
      exact List.filter_sublist external
  · have hh : stationSearchHandler qlat qlng radius persisted external =
        (false, stationSearchPrimary qlat qlng radius persisted) := by
      unfold stationSearchHandler
      rw [if_neg h5]
    rw [hh]
    refine ⟨by simpa using h5, List.take_length _, ?_, ?_⟩
    · intro e he
      rw [List.drop_length] at he
      cases he
    · rw [List.drop_length]
      exact List.nil_sublist external

end ElectroSpot
